import Mathlib

/-! Formal model of the odoo_openai_chat repository's asynchronous AI-reply
pipeline, embedding the relevant parts of `src/services/agents_runner.py`
(trigger detection, chat-context assembly, backend dispatch with fallback,
the background worker's commit-retry loop, the assistants thread token, and
the bot-identity resolver), with theorems checking the natural-language
specification against the code. -/

/-- The reserved marker email of the synthetic AI partner
(`AI_PARTNER_EMAIL = 'assistant@openai.local'` in the source). -/
def AI_PARTNER_EMAIL : String := "assistant@openai.local"

/-- Python's regex class `\s` restricted to ASCII, as matched by `re` in
`_detect_ai_trigger` (and the character set of Python's `str.strip()`). -/
def isPySpace (c : Char) : Bool :=
  c == ' ' || c == '\t' || c == '\n' || c == '\r' || c == '\x0b' || c == '\x0c'

/-- Drop the longest run of leading whitespace, i.e. the text consumed by a
leading greedy `\s*`. -/
def dropWs : List Char → List Char
  | [] => []
  | c :: cs => if isPySpace c then dropWs cs else c :: cs

/-- Python's `str.strip()`: drop leading and trailing whitespace. -/
def stripChars (cs : List Char) : List Char :=
  (dropWs (dropWs cs).reverse).reverse

/-- Python's `str.strip()` on a `String`. -/
def pyStripStr (s : String) : String := String.mk (stripChars s.data)

/-- Case-insensitive literal match at the head of a list: if the characters
of the pattern match a leading run of `cs` up to `Char.toLower`, return the
remainder. -/
def ciDrop : List Char → List Char → Option (List Char)
  | [], cs => some cs
  | _ :: _, [] => none
  | p :: ps, c :: cs => if p.toLower = c.toLower then ciDrop ps cs else none

/-- First alternative of the alias alternation `(ai|iaMeta)`. -/
def aliasAi : List Char := ['a', 'i']

/-- Second alternative of the alias alternation `(ai|iaMeta)`. -/
def aliasIaMeta : List Char := ['i', 'a', 'M', 'e', 't', 'a']

/-- The alternation `(ai|iaMeta)` of the trigger regex, tried in order after
the leading `/`; on success returns the remainder of the text after the
alias. -/
def matchAliasRest (cs : List Char) : Option (List Char) :=
  match ciDrop aliasAi cs with
  | some r => some r
  | none => ciDrop aliasIaMeta cs

/-- Core of `re.match(r'^\s*/(ai|iaMeta)\s*(.*)$', body_plain, re.S | re.I)`:
on success, returns the remainder after the alias. The regex's `\s*` before
`(.*)` only removes leading whitespace that the caller's `.strip()` removes
again, so stripping this remainder equals `m.group(2).strip()`. -/
def detectCore (cs : List Char) : Option (List Char) :=
  match dropWs cs with
  | c :: rest => if c = '/' then matchAliasRest rest else none
  | [] => none

/-- `DiscussChannel._detect_ai_trigger`: `(triggered, prompt)` for a
plain-text body, mirroring the `if not body_plain` guard, the regex match
and `(m.group(2) or '').strip()`. -/
def detectAiTrigger (body_plain : String) : Bool × String :=
  if body_plain = "" then (false, "")
  else
    match detectCore body_plain.data with
    | some rest => (true, String.mk (stripChars rest))
    | none => (false, "")

/-- Spec-side reading of the slash rule: the text begins, after optional
leading whitespace, with `/` followed by one of the aliases `ai` / `iaMeta`
matched case-insensitively; `rest` is the remainder of the text after the
alias. -/
def beginsWithTrigger (s : String) : Prop :=
  ∃ ws al rest, s.data = ws ++ '/' :: (al ++ rest) ∧
    (∀ c ∈ ws, isPySpace c = true) ∧
    (al.map Char.toLower = aliasAi.map Char.toLower ∨
     al.map Char.toLower = aliasIaMeta.map Char.toLower)

theorem ciDrop_eq_some {p cs r : List Char} :
    ciDrop p cs = some r ↔
      ∃ q, cs = q ++ r ∧ q.map Char.toLower = p.map Char.toLower := by
  induction p generalizing cs with
  | nil =>
    simp only [ciDrop, Option.some.injEq, List.map_nil, List.map_eq_nil_iff]
    constructor
    · rintro rfl; exact ⟨[], rfl, rfl⟩
    · rintro ⟨q, rfl, rfl⟩; rfl
  | cons p ps ih =>
    cases cs with
    | nil =>
      simp only [ciDrop, List.map_cons]
      constructor
      · intro h; exact absurd h (by simp)
      · rintro ⟨q, hq, hmap⟩
        cases q with
        | nil => simp at hmap
        | cons a as => simp at hq
    | cons c cs =>
      simp only [ciDrop]
      by_cases hpc : p.toLower = c.toLower
      · rw [if_pos hpc, ih]
        constructor
        · rintro ⟨q, rfl, hmap⟩
          exact ⟨c :: q, rfl, by simp [hmap, hpc]⟩
        · rintro ⟨q, hq, hmap⟩
          cases q with
          | nil => simp at hmap
          | cons a as =>
            simp only [List.cons_append, List.cons.injEq] at hq
            obtain ⟨rfl, rfl⟩ := hq
            simp only [List.map_cons, List.cons.injEq] at hmap
            exact ⟨as, rfl, hmap.2⟩
      · rw [if_neg hpc]
        constructor
        · intro h; exact absurd h (by simp)
        · rintro ⟨q, hq, hmap⟩
          cases q with
          | nil => simp at hmap
          | cons a as =>
            simp only [List.cons_append, List.cons.injEq] at hq
            obtain ⟨rfl, rfl⟩ := hq
            simp only [List.map_cons, List.cons.injEq] at hmap
            exact absurd hmap.1.symm hpc

theorem dropWs_append_of_ws {ws t : List Char} (h : ∀ c ∈ ws, isPySpace c = true) :
    dropWs (ws ++ t) = dropWs t := by
  induction ws with
  | nil => rfl
  | cons c cs ih =>
    simp only [List.cons_append, dropWs, h c (by simp), if_true]
    exact ih fun d hd => h d (by simp [hd])

theorem dropWs_cons_of_not_ws {c : Char} {t : List Char} (h : isPySpace c = false) :
    dropWs (c :: t) = c :: t := by
  simp [dropWs, h]

theorem dropWs_decomp (cs : List Char) :
    ∃ ws, cs = ws ++ dropWs cs ∧ ∀ c ∈ ws, isPySpace c = true := by
  induction cs with
  | nil => exact ⟨[], rfl, by simp⟩
  | cons c cs ih =>
    by_cases h : isPySpace c = true
    · obtain ⟨ws, hws, hall⟩ := ih
      refine ⟨c :: ws, ?_, ?_⟩
      · simp only [dropWs, h, if_true]
        simpa using hws
      · intro d hd
        rcases List.mem_cons.mp hd with rfl | hd
        · exact h
        · exact hall d hd
    · refine ⟨[], ?_, by simp⟩
      simp [dropWs_cons_of_not_ws (by simpa using h)]

theorem slash_not_ws : isPySpace '/' = false := by decide

theorem matchAliasRest_of_ai {cs r : List Char} (h : ciDrop aliasAi cs = some r) :
    matchAliasRest cs = some r := by
  unfold matchAliasRest
  rw [h]

theorem matchAliasRest_of_no_ai {cs : List Char} (h : ciDrop aliasAi cs = none) :
    matchAliasRest cs = ciDrop aliasIaMeta cs := by
  unfold matchAliasRest
  rw [h]

theorem detectCore_of_dropWs {cs rest : List Char} {c : Char}
    (h : dropWs cs = c :: rest) :
    detectCore cs = if c = '/' then matchAliasRest rest else none := by
  unfold detectCore
  rw [h]

theorem detectCore_of_dropWs_nil {cs : List Char} (h : dropWs cs = []) :
    detectCore cs = none := by
  unfold detectCore
  rw [h]

theorem detectAiTrigger_of_core_some {s : String} (hs : s ≠ "") {rest : List Char}
    (h : detectCore s.data = some rest) :
    detectAiTrigger s = (true, String.mk (stripChars rest)) := by
  unfold detectAiTrigger
  rw [if_neg hs, h]

theorem detectAiTrigger_of_core_none {s : String} (hs : s ≠ "")
    (h : detectCore s.data = none) :
    detectAiTrigger s = (false, "") := by
  unfold detectAiTrigger
  rw [if_neg hs, h]

theorem detectCore_eq_some {cs r : List Char} :
    detectCore cs = some r ↔
      ∃ ws al, cs = ws ++ '/' :: (al ++ r) ∧ (∀ c ∈ ws, isPySpace c = true) ∧
        (al.map Char.toLower = aliasAi.map Char.toLower ∨
         al.map Char.toLower = aliasIaMeta.map Char.toLower) := by
  constructor
  · intro h
    obtain ⟨ws, hdecomp, hall⟩ := dropWs_decomp cs
    cases hdw : dropWs cs with
    | nil => rw [detectCore_of_dropWs_nil hdw] at h; exact absurd h (by simp)
    | cons c rest =>
      rw [detectCore_of_dropWs hdw] at h
      by_cases hc : c = '/'
      · subst hc
        rw [if_pos rfl] at h
        cases hai : ciDrop aliasAi rest with
        | some r' =>
          rw [matchAliasRest_of_ai hai] at h
          simp only [Option.some.injEq] at h
          subst h
          obtain ⟨q, rfl, hq⟩ := ciDrop_eq_some.mp hai
          exact ⟨ws, q, by rw [hdecomp, hdw], hall, Or.inl hq⟩
        | none =>
          rw [matchAliasRest_of_no_ai hai] at h
          obtain ⟨q, rfl, hq⟩ := ciDrop_eq_some.mp h
          exact ⟨ws, q, by rw [hdecomp, hdw], hall, Or.inr hq⟩
      · rw [if_neg hc] at h; exact absurd h (by simp)
  · rintro ⟨ws, al, rfl, hws, hal⟩
    have hdw : dropWs (ws ++ '/' :: (al ++ r)) = '/' :: (al ++ r) := by
      rw [dropWs_append_of_ws hws, dropWs_cons_of_not_ws slash_not_ws]
    rw [detectCore_of_dropWs hdw, if_pos rfl]
    rcases hal with hai | hmeta
    · exact matchAliasRest_of_ai (ciDrop_eq_some.mpr ⟨al, rfl, hai⟩)
    · have hlow : al.map Char.toLower = ['i', 'a', 'm', 'e', 't', 'a'] := by
        rw [hmeta]; decide
      cases al with
      | nil => simp at hlow
      | cons a0 tl =>
        simp only [List.map_cons, List.cons.injEq] at hlow
        have hnone : ciDrop aliasAi ((a0 :: tl) ++ r) = none := by
          show (if 'a'.toLower = a0.toLower then ciDrop ['i'] (tl ++ r) else none) = none
          rw [if_neg]
          rw [hlow.1]
          decide
        rw [matchAliasRest_of_no_ai hnone]
        exact ciDrop_eq_some.mpr ⟨a0 :: tl, rfl, hmeta⟩

theorem data_ne_nil_of_decomp {s : String} {ws al rest : List Char}
    (hdecomp : s.data = ws ++ '/' :: (al ++ rest)) : s ≠ "" := by
  intro hempty
  rw [hempty] at hdecomp
  have : ([] : List Char) = ws ++ '/' :: (al ++ rest) := hdecomp
  exact absurd this.symm (by simp)

theorem detect_of_not_triggered {s : String} (h : (detectAiTrigger s).1 = false) :
    detectAiTrigger s = (false, "") := by
  by_cases hs : s = ""
  · rw [hs]; rfl
  · cases hcore : detectCore s.data with
    | some rest => rw [detectAiTrigger_of_core_some hs hcore] at h; simp at h
    | none => exact detectAiTrigger_of_core_none hs hcore

theorem detect_triggered_iff (s : String) :
    (detectAiTrigger s).1 = true ↔ beginsWithTrigger s := by
  constructor
  · intro h
    by_cases hs : s = ""
    · rw [hs] at h; simp [detectAiTrigger] at h
    · cases hcore : detectCore s.data with
      | some rest =>
        obtain ⟨ws, al, hdecomp, hws, hal⟩ := detectCore_eq_some.mp hcore
        exact ⟨ws, al, rest, hdecomp, hws, hal⟩
      | none => rw [detectAiTrigger_of_core_none hs hcore] at h; simp at h
  · rintro ⟨ws, al, rest, hdecomp, hws, hal⟩
    rw [detectAiTrigger_of_core_some (data_ne_nil_of_decomp hdecomp)
      (detectCore_eq_some.mpr ⟨ws, al, hdecomp, hws, hal⟩)]

theorem detect_prompt_of_decomp {s : String} {ws al rest : List Char}
    (hdecomp : s.data = ws ++ '/' :: (al ++ rest))
    (hws : ∀ c ∈ ws, isPySpace c = true)
    (hal : al.map Char.toLower = aliasAi.map Char.toLower ∨
           al.map Char.toLower = aliasIaMeta.map Char.toLower) :
    detectAiTrigger s = (true, String.mk (stripChars rest)) :=
  detectAiTrigger_of_core_some (data_ne_nil_of_decomp hdecomp)
    (detectCore_eq_some.mpr ⟨ws, al, hdecomp, hws, hal⟩)

/-- The inputs of `DiscussChannel.message_post` that decide whether an AI
reply gets scheduled: the `openai_skip` context flag, the enabled flag, the
plain-text rendering of the posted body, the resolved author partner id, the
AI partner id, whether the conversation is a two-member direct chat with the
bot, and the configured api key (`None`/empty are falsy). -/
structure PostCtx where
  openai_skip : Bool
  enabled : Bool
  body_plain : String
  author_id : Nat
  ai_partner_id : Nat
  is_dm_with_bot : Bool
  api_key : Option String
deriving DecidableEq

/-- Result of the trigger-and-schedule pipeline inside `message_post`: the
worker is scheduled with a prompt, a configuration error is posted, or
nothing AI-related happens (the user's message itself is posted in every
case). -/
inductive PostOutcome
  | scheduled (prompt : String)
  | configError
  | nothing
deriving DecidableEq

/-- The trigger-and-schedule pipeline of `message_post`: the `openai_skip`
early return, the enabled check, `_detect_ai_trigger` on the plain body, the
direct-conversation rule (only when the slash rule did not fire and the
author is not the AI partner), the empty-prompt discard, the api-key check,
and the after-commit scheduling of the worker. -/
def messagePostPipeline (p : PostCtx) : PostOutcome :=
  if p.openai_skip then .nothing
  else if !p.enabled then .nothing
  else
    let tp := detectAiTrigger p.body_plain
    let tp2 :=
      if !tp.1 && p.is_dm_with_bot && (p.author_id != p.ai_partner_id) then
        (true, p.body_plain)
      else tp
    if !tp2.1 || tp2.2 == "" then .nothing
    else if p.api_key == none || p.api_key == some "" then .configError
    else .scheduled tp2.2

/-- The posting context the worker uses to publish the AI reply
(`channel.with_context(openai_skip=True).message_post(..., author_id=ai_partner_id, ...)`):
the recursion-guard flag is always set and the author is the AI partner. -/
def workerPostCtx (enabled : Bool) (reply_plain : String) (aiId : Nat)
    (is_dm : Bool) (api_key : Option String) : PostCtx :=
  { openai_skip := true, enabled := enabled, body_plain := reply_plain,
    author_id := aiId, ai_partner_id := aiId, is_dm_with_bot := is_dm,
    api_key := api_key }

/-- C1: detect returns `triggered = true` exactly when the text begins, after
optional leading whitespace, with `/ai` or `/iaMeta` case-insensitively and
across lines; in that case the prompt is the remainder after the alias with
surrounding whitespace trimmed; and the three concrete examples hold. -/
theorem c1_detect_trigger_spec :
    (∀ s : String, (detectAiTrigger s).1 = true ↔ beginsWithTrigger s) ∧
    (∀ (s : String) (ws al rest : List Char),
        s.data = ws ++ '/' :: (al ++ rest) →
        (∀ c ∈ ws, isPySpace c = true) →
        (al.map Char.toLower = aliasAi.map Char.toLower ∨
         al.map Char.toLower = aliasIaMeta.map Char.toLower) →
        detectAiTrigger s = (true, String.mk (stripChars rest))) ∧
    detectAiTrigger "/ai hello" = (true, "hello") ∧
    detectAiTrigger "/iaMeta   " = (true, "") ∧
    detectAiTrigger "hello /ai" = (false, "") :=
  ⟨detect_triggered_iff,
   fun _ _ _ _ hdecomp hws hal => detect_prompt_of_decomp hdecomp hws hal,
   by decide, by decide, by decide⟩

/-- Witness for C1 at the concrete input `" /Ai  bye "`. -/
theorem c1_detect_trigger_spec_witness :
    detectAiTrigger " /Ai  bye " = (true, String.mk (stripChars "  bye ".data)) :=
  c1_detect_trigger_spec.2.1 " /Ai  bye " [' '] ['A', 'i'] "  bye ".data
    (by decide) (by decide) (by decide)

/-- C7 counterexample: `"/iaMeta   "` matches the slash rule and its
remainder trims to empty, yet `_detect_ai_trigger` returns `(true, "")`,
not `(false, "")` as the claim states. -/
theorem c7_counterexample :
    detectAiTrigger "/iaMeta   " = (true, "") ∧
    detectAiTrigger "/iaMeta   " ≠ (false, "") := by decide

/-- C7 amended: detect returns `(false, "")` whenever no rule matches; a
matching slash command whose remainder trims to empty instead yields
`(true, "")`, and it is the caller `message_post` that discards such a
trigger (its `not user_prompt` check), so no reply is ever scheduled for an
empty prompt. -/
theorem c7_empty_prompt_discard :
    (∀ s : String, ¬ beginsWithTrigger s → detectAiTrigger s = (false, "")) ∧
    (∀ p : PostCtx, detectAiTrigger p.body_plain = (true, "") →
        messagePostPipeline p = .nothing) := by
  constructor
  · intro s h
    refine detect_of_not_triggered ?_
    cases htrig : (detectAiTrigger s).1 with
    | false => rfl
    | true => exact absurd ((detect_triggered_iff s).mp htrig) h
  · intro p h
    unfold messagePostPipeline
    rw [h]
    by_cases hskip : p.openai_skip = true
    · rw [if_pos hskip]
    · rw [if_neg hskip]
      by_cases hen : p.enabled = true
      · simp [hen]
      · simp [Bool.eq_false_iff.mpr hen]

/-- Witness for C7's amended statement at concrete inputs: `"hello /ai"`
matches no rule, and an empty-prompt trigger schedules nothing. -/
theorem c7_empty_prompt_discard_witness :
    detectAiTrigger "hello /ai" = (false, "") ∧
    messagePostPipeline
      { openai_skip := false, enabled := true, body_plain := "/ai   ",
        author_id := 1, ai_partner_id := 2, is_dm_with_bot := false,
        api_key := some "k" } = .nothing :=
  ⟨c7_empty_prompt_discard.1 "hello /ai"
     (fun hb => absurd ((detect_triggered_iff "hello /ai").mpr hb) (by decide)),
   c7_empty_prompt_discard.2 _ (by decide)⟩

/-- C6: the bot's own replies never schedule another AI reply: the worker
posts with the `openai_skip` flag set, any post with that flag set schedules
nothing, and even without the flag the direct-conversation rule never fires
for a message whose author is the AI partner. -/
theorem c6_recursion_freedom :
    (∀ enabled reply aiId is_dm key,
        messagePostPipeline (workerPostCtx enabled reply aiId is_dm key) =
          .nothing) ∧
    (∀ p : PostCtx, p.openai_skip = true → messagePostPipeline p = .nothing) ∧
    (∀ p : PostCtx, p.author_id = p.ai_partner_id →
        (detectAiTrigger p.body_plain).1 = false →
        messagePostPipeline p = .nothing) := by
  refine ⟨?_, ?_, ?_⟩
  · intro enabled reply aiId is_dm key
    simp [messagePostPipeline, workerPostCtx]
  · intro p h
    simp [messagePostPipeline, h]
  · intro p hauthor htrig
    unfold messagePostPipeline
    by_cases hskip : p.openai_skip = true
    · rw [if_pos hskip]
    · rw [if_neg hskip]
      by_cases hen : p.enabled = true
      · simp [hen, htrig, hauthor]
      · simp [Bool.eq_false_iff.mpr hen]

/-- Witness for C6 at a concrete bot-authored post. -/
theorem c6_recursion_freedom_witness :
    messagePostPipeline
      { openai_skip := false, enabled := true, body_plain := "the answer is 4",
        author_id := 7, ai_partner_id := 7, is_dm_with_bot := true,
        api_key := some "k" } = .nothing :=
  c6_recursion_freedom.2.2 _ rfl (by decide)

/-- The fields of a persisted `mail.message` that
`_prepare_openai_chat_messages` reads: id, the author's email (if any), the
message type, and the body. The body is stored here as its plain-text
rendering (`tools.html2plaintext`), with `none` standing for a null body
(filtered out by the `('body', '!=', False)` domain term); the code strips
it before use. -/
structure MailMsg where
  id : Nat
  author_email : Option String
  message_type : String
  body : Option String
deriving DecidableEq

/-- One entry of the OpenAI chat payload. -/
structure ChatMsg where
  role : String
  content : String
deriving DecidableEq

/-- The configuration keys `_prepare_openai_chat_messages` reads from the
ConfigSnapshot. -/
structure OpenaiCfg where
  system_prompt : String
  context_count : Nat
deriving DecidableEq

/-- The search domain of `_prepare_openai_chat_messages`: message type in
`{comment, email}`, non-null body, and not the excluded message id (the
model/res_id terms are implicit: the history list is already the
conversation's messages). -/
def searchDomainKeeps (excludeId : Option Nat) (m : MailMsg) : Bool :=
  (m.message_type == "comment" || m.message_type == "email") &&
  m.body.isSome &&
  (match excludeId with
   | some i => m.id != i
   | none => true)

/-- `search(domain, order='id desc', limit=context_count)` followed by the
loop's `reversed(...)`: the last `lim` matching messages of the
ascending-by-id history, in ascending order. -/
def searchRecentAsc (history : List MailMsg) (excludeId : Option Nat)
    (lim : Nat) : List MailMsg :=
  (((history.filter (searchDomainKeeps excludeId)).reverse).take lim).reverse

/-- Role classification of one history message:
`'assistant' if (msg.author_id and msg.author_id.email == AI_PARTNER_EMAIL) else 'user'`
(a missing author, or an author with a different or missing email, is
`author_email = none` or a different `some`, hence `user`). -/
def msgRole (m : MailMsg) : String :=
  if m.author_email = some AI_PARTNER_EMAIL then "assistant" else "user"

/-- The body of the history loop for one selected message: strip the
plain-text rendering of the body, skip the message if that is empty
(`if not content: continue`), otherwise emit the role/content pair. -/
def histEntry (m : MailMsg) : Option ChatMsg :=
  let content := pyStripStr (m.body.getD "")
  if content = "" then none else some ⟨msgRole m, content⟩

/-- `DiscussChannel._prepare_openai_chat_messages`: the optional system
entry (only when the stripped system prompt is non-empty), then the selected
history messages whose stripped plain body is non-empty, each with its role,
then the new user prompt (only when non-empty). -/
def prepareOpenaiChatMessages (history : List MailMsg) (user_prompt : String)
    (cfg : OpenaiCfg) (excludeId : Option Nat) : List ChatMsg :=
  let sys := pyStripStr cfg.system_prompt
  let base : List ChatMsg := if sys ≠ "" then [⟨"system", sys⟩] else []
  let hist := (searchRecentAsc history excludeId cfg.context_count).filterMap
    histEntry
  base ++ hist ++ (if user_prompt ≠ "" then [⟨"user", user_prompt⟩] else [])

/-- C2: in chat mode with history `[m1(user), m2(assistant), m3(user)]`,
`context_count = 2` and new prompt `p`, the assembled list is exactly
`[system, m2, m3, p]`: system first, then the two most recent persisted
messages oldest-first with roles classified against the AI partner email,
then the prompt; `m1` is excluded. -/
theorem c2_chat_context_assembly (m1 m2 m3 : MailMsg) (p : String)
    (cfg : OpenaiCfg) (excludeId : Option Nat)
    (hcount : cfg.context_count = 2)
    (hsys : pyStripStr cfg.system_prompt ≠ "")
    (ht1 : m1.message_type = "comment") (ht2 : m2.message_type = "comment")
    (ht3 : m3.message_type = "comment")
    (hb1 : m1.body.isSome = true) (hb2 : m2.body.isSome = true)
    (hb3 : m3.body.isSome = true)
    (hc2 : pyStripStr (m2.body.getD "") ≠ "")
    (hc3 : pyStripStr (m3.body.getD "") ≠ "")
    (_hr1 : msgRole m1 = "user") (hr2 : msgRole m2 = "assistant")
    (hr3 : msgRole m3 = "user")
    (hex : ∀ i, excludeId = some i → m1.id ≠ i ∧ m2.id ≠ i ∧ m3.id ≠ i)
    (hp : p ≠ "") :
    prepareOpenaiChatMessages [m1, m2, m3] p cfg excludeId =
      [⟨"system", pyStripStr cfg.system_prompt⟩,
       ⟨"assistant", pyStripStr (m2.body.getD "")⟩,
       ⟨"user", pyStripStr (m3.body.getD "")⟩,
       ⟨"user", p⟩] := by
  have hk1 : searchDomainKeeps excludeId m1 = true := by
    cases excludeId with
    | none => simp [searchDomainKeeps, ht1, hb1]
    | some i => simp [searchDomainKeeps, ht1, hb1, (hex i rfl).1]
  have hk2 : searchDomainKeeps excludeId m2 = true := by
    cases excludeId with
    | none => simp [searchDomainKeeps, ht2, hb2]
    | some i => simp [searchDomainKeeps, ht2, hb2, (hex i rfl).2.1]
  have hk3 : searchDomainKeeps excludeId m3 = true := by
    cases excludeId with
    | none => simp [searchDomainKeeps, ht3, hb3]
    | some i => simp [searchDomainKeeps, ht3, hb3, (hex i rfl).2.2]
  have hsel : searchRecentAsc [m1, m2, m3] excludeId cfg.context_count
      = [m2, m3] := by
    simp [searchRecentAsc, hcount, List.filter, hk1, hk2, hk3, List.take]
  unfold prepareOpenaiChatMessages
  rw [hsel]
  simp [histEntry, hsys, hc2, hc3, hp, hr2, hr3]

/-- Witness for C2 at a concrete three-message history. -/
theorem c2_chat_context_assembly_witness :
    prepareOpenaiChatMessages
      [⟨1, none, "comment", some "hi"⟩,
       ⟨2, some "assistant@openai.local", "comment", some "hello"⟩,
       ⟨3, none, "comment", some "how"⟩]
      "p" ⟨"You are helpful.", 2⟩ (some 99) =
      [⟨"system", "You are helpful."⟩, ⟨"assistant", "hello"⟩,
       ⟨"user", "how"⟩, ⟨"user", "p"⟩] :=
  (c2_chat_context_assembly
    ⟨1, none, "comment", some "hi"⟩
    ⟨2, some "assistant@openai.local", "comment", some "hello"⟩
    ⟨3, none, "comment", some "how"⟩
    "p" ⟨"You are helpful.", 2⟩ (some 99)
    rfl (by decide) rfl rfl rfl (by decide) (by decide) (by decide)
    (by decide) (by decide) (by decide) (by decide) (by decide)
    (by intro i hi; injection hi with hi; subst hi; decide)
    (by decide)).trans (by decide)

theorem msgRole_ne_system (m : MailMsg) : msgRole m ≠ "system" := by
  unfold msgRole
  by_cases he : m.author_email = some AI_PARTNER_EMAIL
  · rw [if_pos he]; decide
  · rw [if_neg he]; decide

theorem histEntry_role {m : MailMsg} {cm : ChatMsg}
    (h : histEntry m = some cm) : cm.role = msgRole m := by
  unfold histEntry at h
  by_cases hc : pyStripStr (m.body.getD "") = ""
  · rw [if_pos hc] at h; exact absurd h (by simp)
  · rw [if_neg hc] at h
    simp only [Option.some.injEq] at h
    rw [← h]

/-- C10: the system entry is present exactly when the stripped configured
system prompt is non-empty (head of the list when present, absent from the
whole list otherwise), and a selected history message whose body renders to
empty plain text is dropped after the most recent `context_count` messages
are chosen — in the concrete instance, with `context_count = 2` and history
`[one, two, blank]`, the blank third message is dropped without pulling the
first message back in, leaving a single history entry and (the system
prompt stripping to empty) no system entry. -/
theorem c10_prepare_optional_entries :
    (∀ history prompt cfg excl c, pyStripStr cfg.system_prompt = "" →
        ChatMsg.mk "system" c ∉ prepareOpenaiChatMessages history prompt cfg excl) ∧
    (∀ history prompt cfg excl, pyStripStr cfg.system_prompt ≠ "" →
        (prepareOpenaiChatMessages history prompt cfg excl).head? =
          some (ChatMsg.mk "system" (pyStripStr cfg.system_prompt))) ∧
    prepareOpenaiChatMessages
      [⟨1, none, "comment", some "one"⟩, ⟨2, none, "comment", some "two"⟩,
       ⟨3, none, "comment", some "   "⟩] "p" ⟨" ", 2⟩ none =
      [⟨"user", "two"⟩, ⟨"user", "p"⟩] := by
  refine ⟨?_, ?_, by decide⟩
  · intro history prompt cfg excl c hsys hmem
    simp only [prepareOpenaiChatMessages, hsys, ne_eq, not_true_eq_false,
      if_false, List.nil_append] at hmem
    rcases List.mem_append.mp hmem with hm | hm
    · obtain ⟨m, _, heq⟩ := List.mem_filterMap.mp hm
      have := histEntry_role heq
      exact msgRole_ne_system m this.symm
    · by_cases hp : prompt = ""
      · simp [hp] at hm
      · simp only [hp, ne_eq, not_false_eq_true, if_true, List.mem_singleton] at hm
        exact absurd (congrArg ChatMsg.role hm) (by simp)
  · intro history prompt cfg excl hsys
    simp only [prepareOpenaiChatMessages, hsys, ne_eq, not_false_eq_true,
      if_true, List.cons_append, List.head?_cons]

/-- Witness for C10 at a concrete configuration with a non-empty system
prompt. -/
theorem c10_prepare_optional_entries_witness :
    (prepareOpenaiChatMessages [] "" ⟨"sys", 5⟩ none).head? =
      some (ChatMsg.mk "system" (pyStripStr "sys")) :=
  c10_prepare_optional_entries.2.1 [] "" ⟨"sys", 5⟩ none (by decide)

/-- The fixed failure sentinel text (`'No se pudo obtener respuesta del
modelo.'`, the "could not obtain a response" message). -/
def aiSentinel : String := "No se pudo obtener respuesta del modelo."

/-- The three LLM backends the dispatcher can call. -/
inductive Backend
  | agents
  | assistants
  | chat
deriving DecidableEq

/-- The outcome each backend call would have if invoked: `ok text`, or
`error` for a raised exception (the wire protocols themselves are opaque
external collaborators). -/
structure BackendResults where
  agents : Except String String
  assistants : Except String String
  chat : Except String String

/-- `x or sentinel` on a backend call used as `return call() or sentinel`:
an empty success becomes the sentinel; an exception propagates. -/
def orSentinel (r : Except String String) : Except String String :=
  r.map (fun s => if s = "" then aiSentinel else s)

/-- Python's `str.lower()` (character-wise). -/
def pyLower (s : String) : String := String.mk (s.data.map Char.toLower)

/-- `DiscussChannel._generate_ai_reply`: lower-case the configured mode
(default `chat`); in `agents`/`agents_sdk` mode try the agents runner and,
on exception, fall through — past the `assistants` test, which the agents
mode string fails — to the Chat Completions path; in `assistants` mode
return the assistants backend's result (`or` sentinel), letting its
exceptions propagate; otherwise run the Chat Completions path (`or`
sentinel), letting its exceptions propagate. Also returns the list of
backends invoked, in order. -/
def generateAiReply (modeParam : Option String) (b : BackendResults) :
    Except String String × List Backend :=
  let mode := pyLower (modeParam.getD "chat")
  if mode = "agents" ∨ mode = "agents_sdk" then
    match b.agents with
    | .ok s => (.ok s, [.agents])
    | .error _ => (orSentinel b.chat, [.agents, .chat])
  else if mode = "assistants" then
    (orSentinel b.assistants, [.assistants])
  else
    (orSentinel b.chat, [.chat])

/-- C3: an agents-mode failure triggers exactly one fallback attempt through
the chat path — the assistants backend is never invoked — while an
assistants-mode failure is a hard error with no fallback attempt at all. -/
theorem c3_fallback_policy :
    (∀ (modeParam : Option String) (b : BackendResults) (e : String),
        (pyLower (modeParam.getD "chat") = "agents" ∨
         pyLower (modeParam.getD "chat") = "agents_sdk") →
        b.agents = .error e →
        generateAiReply modeParam b = (orSentinel b.chat, [.agents, .chat]) ∧
        Backend.assistants ∉ (generateAiReply modeParam b).2) ∧
    (∀ (modeParam : Option String) (b : BackendResults) (e : String),
        pyLower (modeParam.getD "chat") = "assistants" →
        b.assistants = .error e →
        generateAiReply modeParam b = (.error e, [.assistants])) := by
  constructor
  · intro modeParam b e hmode hagents
    have hgen : generateAiReply modeParam b = (orSentinel b.chat, [.agents, .chat]) := by
      unfold generateAiReply
      rw [if_pos hmode, hagents]
    exact ⟨hgen, by rw [hgen]; simp⟩
  · intro modeParam b e hmode hassist
    have hne : ¬ (pyLower (modeParam.getD "chat") = "agents" ∨
        pyLower (modeParam.getD "chat") = "agents_sdk") := by
      rw [hmode]; decide
    unfold generateAiReply
    rw [if_neg hne, if_pos hmode, hassist]
    rfl

/-- Witness for C3 with concrete failing backends in both modes. -/
theorem c3_fallback_policy_witness :
    generateAiReply (some "agents")
      ⟨.error "boom", .error "unused", .ok "chat says hi"⟩ =
      (.ok "chat says hi", [.agents, .chat]) ∧
    generateAiReply (some "assistants")
      ⟨.ok "unused", .error "boom", .ok "unused"⟩ =
      (.error "boom", [.assistants]) :=
  ⟨((c3_fallback_policy.1 (some "agents")
      ⟨.error "boom", .error "unused", .ok "chat says hi"⟩ "boom"
      (by decide) rfl).1).trans rfl,
   c3_fallback_policy.2 (some "assistants")
      ⟨.ok "unused", .error "boom", .ok "unused"⟩ "boom" (by decide) rfl⟩

/-- The reply computation of the worker (`_ai_reply_async` lines 212-218):
invoke the generator inside `try`, replace an exception or an empty result
by the fixed sentinel. Totality of this function is the model of "no
generator exception propagates out of the worker". -/
def workerReply (gen : Except String String) : String :=
  match gen with
  | .ok r => if r = "" then aiSentinel else r
  | .error _ => aiSentinel

/-- C4: the reply the worker posts is never empty — every generator
exception and every empty generation result becomes the fixed sentinel. -/
theorem c4_reply_never_empty :
    (∀ gen : Except String String, workerReply gen ≠ "") ∧
    (∀ e, workerReply (.error e) = aiSentinel) ∧
    workerReply (.ok "") = aiSentinel := by
  refine ⟨?_, fun e => rfl, rfl⟩
  intro gen
  cases gen with
  | error e =>
    show aiSentinel ≠ ""
    decide
  | ok r =>
    show (if r = "" then aiSentinel else r) ≠ ""
    by_cases hr : r = ""
    · rw [if_pos hr]; decide
    · rw [if_neg hr]; exact hr

/-- The per-conversation continuation-token state
(`openai_thread_id` on `discuss.channel`). -/
structure ChannelState where
  openai_thread_id : Option String
deriving DecidableEq

/-- The thread-token step of `_assistants_reply` (lines 350-356): use the
stored thread id if present; otherwise create one (`createdId` is the id the
`POST /threads` call returns) and store it with `sudo().write(...)`. Returns
the thread id used for the rest of the call and the resulting state. -/
def assistantsThreadStep (st : ChannelState) (createdId : String) :
    String × ChannelState :=
  match st.openai_thread_id with
  | some tid => (tid, st)
  | none => (createdId, { openai_thread_id := some createdId })

/-- C8: once the conversation's thread id is set, the normal reply path
never overwrites it — a call with a stored token uses it and leaves the
state unchanged, a first call stores the created id exactly once, and every
later call reuses that stored value. -/
theorem c8_thread_token_stable :
    (∀ (st : ChannelState) (t createdId : String),
        st.openai_thread_id = some t →
        assistantsThreadStep st createdId = (t, st)) ∧
    (∀ createdId : String,
        assistantsThreadStep ⟨none⟩ createdId =
          (createdId, ⟨some createdId⟩)) ∧
    (∀ (st : ChannelState) (c1 c2 : String),
        assistantsThreadStep (assistantsThreadStep st c1).2 c2 =
          ((assistantsThreadStep st c1).1, (assistantsThreadStep st c1).2)) := by
  refine ⟨?_, fun _ => rfl, ?_⟩
  · intro st t createdId h
    unfold assistantsThreadStep
    rw [h]
  · intro st c1 c2
    cases h : st.openai_thread_id with
    | some tid => simp [assistantsThreadStep, h]
    | none => simp [assistantsThreadStep, h]

/-- Witness for C8 at a concrete stored token. -/
theorem c8_thread_token_stable_witness :
    assistantsThreadStep ⟨some "thread_abc"⟩ "thread_new" =
      ("thread_abc", ⟨some "thread_abc"⟩) :=
  c8_thread_token_stable.1 ⟨some "thread_abc"⟩ "thread_abc" "thread_new" rfl

/-- Errors the collaborator store can raise on `create`. -/
inductive StoreError
  | duplicateKey
  | other
deriving DecidableEq

/-- `DiscussChannel._get_or_create_ai_partner`: one `search` on the fixed
marker email (its result, as the found partner id, if any), and otherwise
`return Partner.create({...})` — whose outcome, success or raised error, is
returned as-is: there is no `try`/`except` around the create. -/
def getOrCreateAiPartner (searchResult : Option Nat)
    (createResult : Except StoreError Nat) : Except StoreError Nat :=
  match searchResult with
  | some pid => .ok pid
  | none => createResult

/-- C9 counterexample: when the lookup misses and the store's create raises
a duplicate-creation error, `_get_or_create_ai_partner` propagates that
error instead of folding it back into a lookup — the claimed race tolerance
is absent from the code. -/
theorem c9_counterexample :
    getOrCreateAiPartner none (.error .duplicateKey) =
      .error StoreError.duplicateKey := rfl

/-- C9 amended: the resolver returns the found identity when the lookup
hits, and otherwise returns the create outcome unchanged — in particular
any duplicate-creation error from the store propagates to the caller; no
catch-and-relookup exists. -/
theorem c9_no_race_tolerance :
    (∀ (pid : Nat) (c : Except StoreError Nat),
        getOrCreateAiPartner (some pid) c = .ok pid) ∧
    (∀ e : StoreError, getOrCreateAiPartner none (.error e) = .error e) ∧
    (∀ pid : Nat, getOrCreateAiPartner none (.ok pid) = .ok pid) :=
  ⟨fun _ _ => rfl, fun _ => rfl, fun _ => rfl⟩

/-- `max_attempts = 3` in `_ai_reply_async`. -/
def maxAttempts : Nat := 3

/-- Abstract outcome of one attempt of the worker loop (the external events
of that attempt): the advisory lock times out; the commit succeeds; the
commit raises a serialization failure (`r` is the `random.random()` draw of
the subsequent backoff); the commit raises `InFailedSqlTransaction` or some
other error; a serialization failure is raised inside the transactional
block before commit; or some other exception occurs in the attempt. -/
inductive WOutcome
  | lockTimeout
  | commitOk
  | commitConflict (r : ℚ)
  | commitInFailed
  | commitOtherError
  | attemptSerialization (r : ℚ)
  | attemptOtherError

/-- Observable events of the worker loop, in order. -/
inductive WEv
  | acquireLock
  | lockFailLog
  | generate
  | lockRows
  | postReply
  | commitAttempt
  | rollback
  | releaseLock
  | backoff (d : ℚ)
  | maxAttemptsLog
deriving DecidableEq

/-- The events of the `except SerializationFailure` commit handler: roll
back, release the advisory lock, sleep `0.25 + random.random() * 0.25`
seconds, then (the `finally` clause) a second best-effort lock release
before the loop continues. -/
def conflictHandlerEvs (r : ℚ) : List WEv :=
  [WEv.rollback, WEv.releaseLock, WEv.backoff (1/4 + r * (1/4)), WEv.releaseLock]

/-- The event trace of a single attempt with the given outcome, following
the body of the `for attempt in range(1, max_attempts + 1)` loop: acquire
the advisory lock, generate the reply, row-lock the members, post the
reply, try the commit, then the outcome's handler (the `finally` clause
releases the advisory lock on every exit from the commit block). -/
def attemptEvs : WOutcome → List WEv
  | .lockTimeout => [.lockFailLog]
  | .commitOk => [.acquireLock, .generate, .lockRows, .postReply, .commitAttempt,
      .releaseLock]
  | .commitConflict r => [.acquireLock, .generate, .lockRows, .postReply,
      .commitAttempt] ++ conflictHandlerEvs r
  | .commitInFailed => [.acquireLock, .generate, .lockRows, .postReply,
      .commitAttempt, .rollback, .releaseLock]
  | .commitOtherError => [.acquireLock, .generate, .lockRows, .postReply,
      .commitAttempt, .rollback, .releaseLock]
  | .attemptSerialization r => [.backoff (1/4 + r * (1/4))]
  | .attemptOtherError => []

/-- How the worker loop terminates: a reply was durably committed, the
trigger was abandoned without retrying, or all attempts were consumed by
serialization conflicts. -/
inductive WStatus
  | posted
  | abandoned
  | gaveUp
deriving DecidableEq

/-- The worker loop of `_ai_reply_async` over the per-attempt outcomes, with
the remaining attempt budget as fuel: a lock timeout or a transaction-fatal
error ends the loop at once with nothing committed; a successful commit
returns; a serialization failure (at commit or inside the block) consumes
one attempt and restarts the whole transaction; an exhausted budget logs
`max attempts exceeded` and posts nothing. -/
def runWorkerAux : Nat → List WOutcome → List WEv × WStatus
  | 0, _ => ([WEv.maxAttemptsLog], .gaveUp)
  | _ + 1, [] => ([], .abandoned)
  | n + 1, o :: rest =>
    match o with
    | .commitConflict r =>
      let p := runWorkerAux n rest
      (attemptEvs (.commitConflict r) ++ p.1, p.2)
    | .attemptSerialization r =>
      let p := runWorkerAux n rest
      (attemptEvs (.attemptSerialization r) ++ p.1, p.2)
    | .commitOk => (attemptEvs .commitOk, .posted)
    | .lockTimeout => (attemptEvs .lockTimeout, .abandoned)
    | .commitInFailed => (attemptEvs .commitInFailed, .abandoned)
    | .commitOtherError => (attemptEvs .commitOtherError, .abandoned)
    | .attemptOtherError => (attemptEvs .attemptOtherError, .abandoned)

/-- The worker loop with the full attempt budget. -/
def runWorker (outs : List WOutcome) : List WEv × WStatus :=
  runWorkerAux maxAttempts outs

/-- C5: a serialization conflict at commit causes, within the attempt's
trace and in order, a rollback, a release of the advisory lock and a
randomized backoff of between 1/4 s and 1/2 s, and then restarts the whole
transaction having consumed exactly one unit of the attempt budget; and
three conflicting attempts exhaust the budget of `maxAttempts = 3`, so the
coordinator logs and gives up with nothing posted. -/
theorem c5_commit_conflict_retry :
    (∀ (n : Nat) (rest : List WOutcome) (r : ℚ), 0 ≤ r → r ≤ 1 →
        runWorkerAux (n + 1) (WOutcome.commitConflict r :: rest) =
          (attemptEvs (WOutcome.commitConflict r) ++ (runWorkerAux n rest).1,
           (runWorkerAux n rest).2) ∧
        [WEv.rollback, WEv.releaseLock,
         WEv.backoff (1/4 + r * (1/4))].Sublist
          (attemptEvs (WOutcome.commitConflict r)) ∧
        1/4 ≤ 1/4 + r * (1/4) ∧ 1/4 + r * (1/4) ≤ 1/2) ∧
    (∀ r1 r2 r3 : ℚ,
        (runWorker [WOutcome.commitConflict r1, WOutcome.commitConflict r2,
          WOutcome.commitConflict r3]).2 = .gaveUp ∧
        WEv.maxAttemptsLog ∈ (runWorker [WOutcome.commitConflict r1,
          WOutcome.commitConflict r2, WOutcome.commitConflict r3]).1 ∧
        (runWorker [WOutcome.commitConflict r1, WOutcome.commitConflict r2,
          WOutcome.commitConflict r3]).2 ≠ .posted) := by
  constructor
  · intro n rest r h0 h1
    refine ⟨rfl, ?_, ?_, ?_⟩
    · show List.Sublist _
        ([WEv.acquireLock, WEv.generate, WEv.lockRows, WEv.postReply,
          WEv.commitAttempt] ++ conflictHandlerEvs r)
      refine List.Sublist.trans ?_ (List.sublist_append_right _ _)
      exact List.sublist_append_left
        [WEv.rollback, WEv.releaseLock, WEv.backoff (1/4 + r * (1/4))]
        [WEv.releaseLock]
    · nlinarith
    · nlinarith
  · intro r1 r2 r3
    have hst : (runWorker [WOutcome.commitConflict r1, WOutcome.commitConflict r2,
        WOutcome.commitConflict r3]).2 = WStatus.gaveUp := rfl
    refine ⟨hst, ?_, ?_⟩
    · simp [runWorker, maxAttempts, runWorkerAux, attemptEvs, conflictHandlerEvs]
    · rw [hst]
      decide

/-- Witness for C5 at a concrete jitter draw. -/
theorem c5_commit_conflict_retry_witness :
    runWorkerAux 1 [WOutcome.commitConflict (1/2)] =
      (attemptEvs (WOutcome.commitConflict (1/2)) ++ (runWorkerAux 0 []).1,
       (runWorkerAux 0 []).2) ∧
    [WEv.rollback, WEv.releaseLock,
     WEv.backoff (1/4 + (1/2 : ℚ) * (1/4))].Sublist
      (attemptEvs (WOutcome.commitConflict (1/2))) ∧
    (1 : ℚ)/4 ≤ 1/4 + (1/2 : ℚ) * (1/4) ∧
    (1 : ℚ)/4 + (1/2 : ℚ) * (1/4) ≤ 1/2 :=
  c5_commit_conflict_retry.1 0 [] (1/2) (by norm_num) (by norm_num)
